import Mathlib

/-!
# Verification of the stock-OHLC acquisition-and-cache pipeline

Shallow embedding of the repository's core functions:

* `fetch_and_cache_data` (src/main.py lines 223-288): cache read with
  validity checks, then a bounded-retry download loop;
* the workflow variant of the same function
  (src/.github/workflows/main.py lines 35-107), whose cache-coverage test
  differs;
* `preprocess_data`, the pipeline cleaner (src/main.py lines 293-331);
* `preprocess_data`, the CSV-oriented cleaner (src/main.py lines 10-62),
  and the `plot_stock_kline` driver (src/main.py lines 65-185).

Modelling conventions:

* A pandas `DataFrame` is a `Frame`: a list of column labels, a list of
  rows, and a flag recording whether the `Date` column's dtype is
  timezone-aware.  Row values live in the rows regardless of the label
  list; a column "exists" for the code's checks iff its label is listed.
* Dates are `Int` day ordinals.  The code compares dates formatted as
  `%Y-%m-%d` strings; lexicographic order on that fixed-width format
  coincides with day order, so integer comparison is faithful.
* Prices and volumes are `Option Int`; `none` stands for NaN.
* Timezone localization and conversion preserve the underlying instant,
  so in the model they only toggle the frame-level awareness flag.
* Fallible Python code is embedded with `Except`; `sys.exit(1)` becomes
  an explicit `exitCode 1` result variant.
-/

/-- One tabular record (a pandas row).  Field names follow the column
labels used by the code (`Date`, `Open`, `High`, `Low`, `Close`,
`Volume`). -/
structure Row where
  Date : Int
  Open : Option Int
  High : Option Int
  Low : Option Int
  Close : Option Int
  Volume : Option Int
deriving DecidableEq

/-- A pandas DataFrame: column labels, rows, and whether the `Date`
column carries timezone information. -/
structure Frame where
  cols : List String
  rows : List Row
  tzAware : Bool
deriving DecidableEq

/-- The Python exceptions the embedded code can raise, by raising site. -/
inductive Err where
  | emptyCache
  | cacheMissingCols (cols : List String)
  | unreadableCache
  | cacheRangeInsufficient
  | emptyDownload
  | downloadMissingCols (cols : List String)
  | alreadyTzAware
  | writeFail
  | remoteRaise (msg : String)
  | downloadExhausted (last : Err)
  | missingCols (cols : List String)
  | keyErrorDate
  | insufficientData
  | keyErrorCols (cols : List String)
  | noDataAfterTruncate
deriving DecidableEq

/-- The cache file on disk: absent, present but unreadable (an I/O or
parse failure in `pd.read_csv`), or parsed into a frame. -/
inductive CacheFile where
  | absent
  | unreadable
  | parsed (f : Frame)
deriving DecidableEq

/-- Outcome of the cache-reading phase of `fetch_and_cache_data`:
the cached frame is served, control falls through to the download loop,
or an exception escapes to the outer handler (which logs and re-raises). -/
inductive CachePhase where
  | served (f : Frame)
  | refetch
  | fatal (e : Err)
deriving DecidableEq

/-- Columns the cache check of src/main.py line 234 requires. -/
def cache_required_cols : List String := ["Open", "High", "Low", "Close"]

/-- Columns the cache check of src/.github/workflows/main.py line 44
requires. -/
def cache_required_cols_wf : List String := ["Date", "Open", "High", "Low", "Close"]

/-- `df["Date"].min()` over the parsed cache (only evaluated on
non-empty frames; the empty check precedes it). -/
def minDate (f : Frame) : Int := ((f.rows.map Row.Date).min?).getD 0

/-- `df["Date"].max()` over the parsed cache. -/
def maxDate (f : Frame) : Int := ((f.rows.map Row.Date).max?).getD 0

/-- The range test of src/main.py line 241:
`if min_date >= start_date and max_date <= end_date`. -/
def cache_range_ok_main (minD maxD s e : Int) : Bool :=
  decide (s ≤ minD) && decide (maxD ≤ e)

/-- The coverage test of src/.github/workflows/main.py line 50:
valid iff `min_cache_date <= start_date and max_cache_date >= end_date`. -/
def cache_covers_wf (minD maxD s e : Int) : Bool :=
  decide (minD ≤ s) && decide (e ≤ maxD)

/-- The cache-reading phase of `fetch_and_cache_data`
(src/main.py lines 228-245).  An absent file skips straight to the
download loop; a `ValueError` raised here (empty cache, missing columns)
is caught only by the function's outer handler, which logs and
re-raises; only a failed range test falls through to re-download. -/
def read_cache (c : CacheFile) (s e : Int) : CachePhase :=
  match c with
  | .absent => .refetch
  | .unreadable => .fatal .unreadableCache
  | .parsed f =>
    if f.rows.isEmpty then .fatal .emptyCache
    else if (cache_required_cols.filter (fun col => ! f.cols.contains col)) ≠ [] then
      .fatal (.cacheMissingCols (cache_required_cols.filter (fun col => ! f.cols.contains col)))
    else if cache_range_ok_main (minDate f) (maxDate f) s e then .served f
    else .refetch

/-- The cache-reading phase of the workflow variant
(src/.github/workflows/main.py lines 40-54).  There every invalid cache,
the range mismatch included, raises a `ValueError` that the outer
handler re-raises. -/
def read_cache_wf (c : CacheFile) (s e : Int) : CachePhase :=
  match c with
  | .absent => .refetch
  | .unreadable => .fatal .unreadableCache
  | .parsed f =>
    if f.rows.isEmpty then .fatal .emptyCache
    else if (cache_required_cols_wf.filter (fun col => ! f.cols.contains col)) ≠ [] then
      .fatal (.cacheMissingCols (cache_required_cols_wf.filter (fun col => ! f.cols.contains col)))
    else if cache_covers_wf (minDate f) (maxDate f) s e then .served f
    else .fatal .cacheRangeInsufficient

/-- A cache read at a given wall-clock time.  `fetch_and_cache_data`
consults neither a clock nor the cache file's modification time when
validating the cache, so the outcome cannot depend on when the entry was
written or when the read runs; the parameters `lastWritten`, `now` and
`maxStaleness` appear only so that time-indexed properties can be
stated, and are unused exactly because the source uses no such data. -/
def read_cache_at (c : CacheFile) (s e : Int)
    (_lastWritten _now _maxStaleness : Int) : CachePhase :=
  read_cache c s e

-- Day ordinals (proleptic Gregorian, as Python's date.toordinal) for the
-- concrete dates named by the claims; only their order matters here.
def d20200101 : Int := 737425
def d20200601 : Int := 737577
def d20200602 : Int := 737578

/-- A cache entry covering [2020-01-01, 2020-06-01]. -/
def entry_jan_jun : Frame :=
  { cols := ["Date", "Open", "High", "Low", "Close"]
  , rows :=
      [ { Date := d20200101, Open := some 100, High := some 110
        , Low := some 90, Close := some 105, Volume := some 1000 }
      , { Date := d20200601, Open := some 120, High := some 130
        , Low := some 110, Close := some 125, Volume := some 2000 } ]
  , tzAware := true }

/-- A cache entry covering [2020-01-01, 2020-06-02] exactly. -/
def entry_full_range : Frame :=
  { cols := ["Date", "Open", "High", "Low", "Close"]
  , rows :=
      [ { Date := d20200101, Open := some 100, High := some 110
        , Low := some 90, Close := some 105, Volume := some 1000 }
      , { Date := d20200602, Open := some 120, High := some 130
        , Low := some 110, Close := some 125, Volume := some 2000 } ]
  , tzAware := true }

/-! ## Fetch client: the download retry loop (src/main.py lines 248-279) -/

/-- One remote call `yf.download(...)`: either it raises, or it returns a
frame (possibly empty).  The remote is indexed by attempt number so that
a stub's behaviour may vary per call. -/
inductive RemoteResult where
  | raises (msg : String)
  | frame (f : Frame)

/-- Columns the download path of src/main.py line 262 requires. -/
def dl_required_cols : List String := ["Open", "High", "Low", "Close"]

/-- The timezone step of src/main.py line 267:
`df.index.tz_localize('UTC').tz_convert(tz)`.  pandas raises
`TypeError: Already tz-aware, ...` when `tz_localize` is applied to an
already-aware index; on a naive index it localizes as UTC and the
subsequent `tz_convert` preserves the instant. -/
def tz_localize_utc_convert (f : Frame) : Except Err Frame :=
  if f.tzAware then .error .alreadyTzAware
  else .ok { f with tzAware := true }

/-- The `pd.to_datetime(df["Date"], utc=True).dt.tz_convert(...)` step of
src/main.py line 307: a naive column is interpreted as UTC (localized
once), an aware column is merely converted; either way the result is
aware, the instants are unchanged, and no error is raised. -/
def to_datetime_utc (f : Frame) : Frame := { f with tzAware := true }

/-- The body of one iteration of the retry loop
(src/main.py lines 249-272): download, empty check, column check,
timezone localization, then `df.to_csv(cache_file, ...)`; an exception
anywhere in the body — the cache write included — is caught by the
`except` of line 274 and counts as a failed attempt. -/
def attempt_step (remote : Nat → RemoteResult) (write_ok : Nat → Bool)
    (i : Nat) : Except Err Frame :=
  match remote i with
  | .raises m => .error (.remoteRaise m)
  | .frame f =>
    if f.rows.isEmpty then .error .emptyDownload
    else if (dl_required_cols.filter (fun col => ! f.cols.contains col)) ≠ [] then
      .error (.downloadMissingCols (dl_required_cols.filter (fun col => ! f.cols.contains col)))
    else
      match tz_localize_utc_convert f with
      | .error e2 => .error e2
      | .ok g => if write_ok i then .ok g else .error .writeFail

/-- Outcome of the retry loop: a frame returned, a terminal
`RuntimeError` wrapping the last attempt's error, or — when
`range(max_retries)` is empty — Python's implicit `return None`. -/
inductive DLOutcome where
  | success (f : Frame)
  | exhausted (last : Err)
  | fellThrough

/-- `for attempt in range(max_retries)` (src/main.py line 248), started
at attempt index `i` with `remaining` iterations left.  On a failed
attempt, `attempt < MAX_RETRIES - 1` sleeps and retries, otherwise
line 279 raises `RuntimeError(...) from e`.  Returns the number of
remote invocations together with the outcome. -/
def download_retry_aux (remote : Nat → RemoteResult) (write_ok : Nat → Bool) :
    Nat → Nat → Nat × DLOutcome
  | _, 0 => (0, .fellThrough)
  | i, remaining + 1 =>
    match attempt_step remote write_ok i with
    | .ok f => (1, .success f)
    | .error e =>
      match remaining with
      | 0 => (1, .exhausted e)
      | r + 1 =>
        let p := download_retry_aux remote write_ok (i + 1) (r + 1)
        (p.1 + 1, p.2)

/-- The whole retry loop, from attempt 0. -/
def download_retry (remote : Nat → RemoteResult) (write_ok : Nat → Bool)
    (max_retries : Nat) : Nat × DLOutcome :=
  download_retry_aux remote write_ok 0 max_retries

/-- Result of `fetch_and_cache_data` as seen by its caller: a frame, a
raised exception, or Python's implicit `None` (only when the loop runs
zero iterations). -/
inductive FetchResult where
  | ok (f : Frame)
  | raised (e : Err)
  | noneResult

/-- `fetch_and_cache_data` (src/main.py lines 223-288): the cache phase,
then the download retry loop.  The outer `except` (line 281) writes
error.log and re-raises, so every exception stays raised.  Also returns
the number of remote invocations performed. -/
def fetch_and_cache_data (c : CacheFile) (s e : Int)
    (remote : Nat → RemoteResult) (write_ok : Nat → Bool)
    (max_retries : Nat) : FetchResult × Nat :=
  match read_cache c s e with
  | .served f => (.ok f, 0)
  | .fatal err => (.raised err, 0)
  | .refetch =>
    match download_retry remote write_ok max_retries with
    | (n, .success f) => (.ok f, n)
    | (n, .exhausted last) => (.raised (.downloadExhausted last), n)
    | (n, .fellThrough) => (.noneResult, n)

/-- A well-formed non-empty naive download result, used by concrete
instantiations. -/
def good_frame : Frame :=
  { cols := ["Open", "High", "Low", "Close", "Volume"]
  , rows :=
      [ { Date := 0, Open := some 10, High := some 12
        , Low := some 9, Close := some 11, Volume := some 500 }
      , { Date := 1, Open := some 11, High := some 13
        , Low := some 10, Close := some 12, Volume := some 600 } ]
  , tzAware := false }

/-- The empty download result. -/
def empty_frame : Frame := { cols := [], rows := [], tzAware := false }

/-! ## The pipeline cleaner: `preprocess_data` (src/main.py lines 293-331) -/

/-- Python's `str.strip()` (pandas `.str.strip()`, src/main.py
line 297): remove leading and trailing whitespace from a label. -/
def strip_label (s : String) : String :=
  ⟨((s.data.dropWhile Char.isWhitespace).reverse.dropWhile Char.isWhitespace).reverse⟩

/-- Columns required at src/main.py line 301. -/
def pp_required_cols : List String := ["Open", "High", "Low", "Close"]

/-- `df.dropna(subset=["Open","High","Low","Close"])` keeps a row iff
all four price fields are present. -/
def row_complete (r : Row) : Bool :=
  r.Open.isSome && r.High.isSome && r.Low.isSome && r.Close.isSome

/-- The sort key of `df.sort_values(by="Date")`. -/
def dateLE (a b : Row) : Prop := a.Date ≤ b.Date

instance : DecidableRel dateLE := fun a b => inferInstanceAs (Decidable (a.Date ≤ b.Date))

/-- `df.sort_values(by="Date")` (src/main.py line 308); pandas' default
sort is not stable, so only the ordering and the permutation property
are relied upon. -/
def sort_by_date (rows : List Row) : List Row := List.insertionSort dateLE rows

/-- The column labels after `df.columns.str.strip()`. -/
def trimmed_cols (df : Frame) : List String := df.cols.map strip_label

/-- The required columns missing after stripping (src/main.py line 302). -/
def pp_missing (df : Frame) : List String :=
  pp_required_cols.filter (fun c => ! (trimmed_cols df).contains c)

/-- The rows that survive sorting and `dropna` (src/main.py
lines 308-312). -/
def pp_kept (df : Frame) : List Row := (sort_by_date df.rows).filter row_complete

/-- `preprocess_data`, the pipeline cleaner (src/main.py lines 293-331):
strip column labels, check the required columns, convert the `Date`
column (`pd.to_datetime(..., utc=True).dt.tz_convert(...)` — a
`KeyError` if there is no `Date` column), sort by date, drop rows with
missing prices, and reject results shorter than 2 rows.  The function's
own `except` handler only logs and re-raises, so errors surface
unchanged.  No deduplication step appears anywhere in this function. -/
def preprocess_data (df : Frame) : Except Err Frame :=
  if pp_missing df ≠ [] then .error (.missingCols (pp_missing df))
  else if ! (trimmed_cols df).contains "Date" then .error .keyErrorDate
  else if (pp_kept df).length < 2 then .error .insufficientData
  else .ok { cols := trimmed_cols df, rows := pp_kept df, tzAware := true }

/-! ## The CSV-oriented cleaner and driver (src/main.py lines 10-62 and 65-185) -/

/-- Target columns of the CSV-oriented `preprocess_data`
(src/main.py line 22). -/
def csv_target_cols : List String := ["Date", "Open", "High", "Low", "Close", "Volume"]

/-- `df[~df.index.duplicated(keep='last')]` (src/main.py line 36): keep
a row iff no later row carries the same date; order is otherwise
preserved (the function never sorts). -/
def dedup_keep_last : List Row → List Row
  | [] => []
  | r :: rs =>
    if rs.any (fun x => x.Date == r.Date) then dedup_keep_last rs
    else r :: dedup_keep_last rs

/-- `df.last('150D')` (src/main.py line 44): keep the rows whose date is
strictly within 150 days of the final row's date. -/
def last_150d (rows : List Row) : List Row :=
  match rows.getLast? with
  | none => []
  | some r => rows.filter (fun x => decide (r.Date - 150 < x.Date))

/-- `df[df['Close'] > 0]` (src/main.py line 40). -/
def close_positive (r : Row) : Bool :=
  match r.Close with
  | some c => decide (0 < c)
  | none => false

/-- The `try`-body of the CSV-oriented `preprocess_data`
(src/main.py lines 19-58).  The `col_mapping` of line 24 compares a
lower-cased label with a capitalized target and therefore never
matches, so the subsequent `df.rename(columns=...)[target_cols]`
selection requires the exact target labels and raises `KeyError`
otherwise (which also makes the line-30 missing-column check dead
code).  The derived-indicator steps (涨幅, MA5..MA60) only append
columns computed from `Close` and cannot raise; they are not
modelled because no claim concerns their values. -/
def preprocess_csv_inner (df : Frame) : Except Err Frame :=
  if ! csv_target_cols.all (fun c => df.cols.contains c) then
    .error (.keyErrorCols (csv_target_cols.filter (fun c => ! df.cols.contains c)))
  else
    let rows1 := dedup_keep_last df.rows
    let rows2 := rows1.filter row_complete
    let rows3 := rows2.filter close_positive
    let rows4 := last_150d rows3
    if rows4.isEmpty then .error .noDataAfterTruncate
    else .ok { cols := csv_target_cols, rows := rows4, tzAware := df.tzAware }

/-- What the process does: return normally or terminate via
`sys.exit(n)`. -/
inductive CsvResult where
  | ok (f : Frame)
  | exitCode (n : Nat)

/-- The CSV-oriented `preprocess_data` as observed by a caller
(src/main.py lines 19-62): the whole body sits in
`try ... except Exception: print(...); sys.exit(1)`, so every failure
terminates the process with exit code 1 and no `Exception` ever escapes
to the caller. -/
def preprocess_data_csv (df : Frame) : CsvResult :=
  match preprocess_csv_inner df with
  | .ok f => .ok f
  | .error _ => .exitCode 1

/-- Control-flow skeleton of `plot_stock_kline` (src/main.py
lines 65-185): file-existence check, CSV parse, preprocessing, then the
opaque chart rendering (mplfinance calls, out of scope, represented by
the `render` parameter).  The body sits in
`try ... except Exception: print(...); sys.exit(1)`; the nested
`preprocess_data` call exits the process directly (`SystemExit` is not
an `Exception`, so the local handler does not intercept it — either way
the process terminates with code 1). -/
def plot_stock_kline (file_there : Bool) (parsed : Except String Frame)
    (render : Except String Unit) : CsvResult :=
  if ! file_there then .exitCode 1
  else
    match parsed with
    | .error _ => .exitCode 1
    | .ok raw =>
      match preprocess_csv_inner raw with
      | .error _ => .exitCode 1
      | .ok df =>
        match render with
        | .error _ => .exitCode 1
        | .ok _ => .ok df

/-- Input with two rows for the same date and different close prices. -/
def dup_row_a : Row :=
  { Date := 5, Open := some 1, High := some 3, Low := some 1, Close := some 2, Volume := some 10 }
def dup_row_b : Row :=
  { Date := 5, Open := some 1, High := some 4, Low := some 1, Close := some 3, Volume := some 20 }
def dup_frame : Frame :=
  { cols := ["Date", "Open", "High", "Low", "Close"]
  , rows := [dup_row_a, dup_row_b]
  , tzAware := false }

/-! ## Helper lemmas -/

/-- When every attempt fails with the same error, the retry loop runs
all its iterations and ends with `exhausted` wrapping that error. -/
theorem download_retry_all_fail (remote : Nat → RemoteResult) (w : Nat → Bool)
    (er : Err) (h : ∀ j, attempt_step remote w j = .error er) :
    ∀ n i, download_retry_aux remote w i (n + 1) = (n + 1, .exhausted er) := by
  intro n
  induction n with
  | zero => intro i; simp [download_retry_aux, h i]
  | succ m ih =>
    intro i
    simp [download_retry_aux, h i, ih (i + 1)]

/-- The rows kept by the pipeline cleaner are a permutation of the
complete rows of its input. -/
theorem pp_kept_perm (df : Frame) :
    List.Perm (pp_kept df) (df.rows.filter row_complete) :=
  (List.perm_insertionSort dateLE df.rows).filter row_complete

/-! ## Claims -/

/-- C1: the spec requires the cache to be served only when the entry's
covered range fully contains the requested range, and names the boundary
input (entry covering [2020-01-01, 2020-06-01], request
[2020-01-01, 2020-06-02]) as one that must be reported Invalid.  The
range test of src/main.py line 241 is inverted — it accepts any cache
whose range is a subset of the request — so at exactly that input the
entry is served; the workflow variant's containment test rejects it, as
the spec demands. -/
theorem c1_main_range_check_serves_partial_cache :
    read_cache (.parsed entry_jan_jun) d20200101 d20200602 = .served entry_jan_jun
    ∧ cache_range_ok_main (minDate entry_jan_jun) (maxDate entry_jan_jun)
        d20200101 d20200602 = true
    ∧ cache_covers_wf (minDate entry_jan_jun) (maxDate entry_jan_jun)
        d20200101 d20200602 = false
    ∧ read_cache_wf (.parsed entry_jan_jun) d20200101 d20200602
        = .fatal .cacheRangeInsufficient := by
  decide

/-- C2 counterexample: an entry written at `t0 = 0` and read at
`t0 + maxStalenessSeconds + 1 = 11` (with `maxStalenessSeconds = 10`,
and coverage matching the request) is still served, where the claim
requires the read to report Invalid. -/
theorem c2_counterexample_stale_entry_served :
    read_cache_at (.parsed entry_full_range) d20200101 d20200602 0 11 10
      = .served entry_full_range := by
  decide

/-- C2 amended: cache validity is independent of the entry's age.
`fetch_and_cache_data` consults neither a clock nor the cache file's
modification time, so a read at `t0 + maxStaleness + 1` behaves exactly
like one at `t0 + maxStaleness - 1`; an entry is served iff it is
non-empty, has the required columns, and passes the date-range test. -/
theorem c2_cache_validity_age_independent (c : CacheFile) (f : Frame)
    (s e lw now ms lw' now' ms' : Int) :
    read_cache_at c s e lw now ms = read_cache_at c s e lw' now' ms'
    ∧ (read_cache (.parsed f) s e = .served f ↔
        (f.rows.isEmpty = false
         ∧ cache_required_cols.filter (fun col => ! f.cols.contains col) = []
         ∧ cache_range_ok_main (minDate f) (maxDate f) s e = true)) := by
  refine ⟨rfl, ?_⟩
  simp only [read_cache]
  split
  · rename_i hempty
    constructor
    · intro h; exact absurd h (by simp)
    · rintro ⟨h1, -, -⟩; rw [hempty] at h1; exact absurd h1 (by simp)
  · rename_i hempty
    have hempty' : f.rows.isEmpty = false := by
      cases hE : f.rows.isEmpty
      · rfl
      · exact absurd hE hempty
    split
    · rename_i hmiss
      constructor
      · intro h; exact absurd h (by simp)
      · rintro ⟨-, hfil, -⟩; exact absurd hfil hmiss
    · rename_i hmiss
      have hfil : cache_required_cols.filter (fun col => ! f.cols.contains col) = [] :=
        not_ne_iff.mp hmiss
      split
      · rename_i hrange
        constructor
        · intro _; exact ⟨hempty', hfil, hrange⟩
        · intro _; rfl
      · rename_i hrange
        constructor
        · intro h; exact absurd h (by simp)
        · rintro ⟨-, -, hr⟩; exact absurd hr hrange

/-- C2 witness: the characterization applied at a concrete covered
entry. -/
theorem c2_witness_covered_entry_served :
    read_cache (.parsed entry_full_range) d20200101 d20200602
      = .served entry_full_range :=
  (c2_cache_validity_age_independent (.parsed entry_full_range) entry_full_range
      d20200101 d20200602 0 11 10 0 9 10).2.mpr (by decide)

/-- C3 counterexample: an empty cache entry is not treated as Invalid
with a fallback re-fetch — the `ValueError` raised at src/main.py
line 232 escapes through the outer handler (which logs and re-raises),
the remote is never invoked (count 0), and the caller sees the raised
error even though a re-fetch would have succeeded. -/
theorem c3_counterexample_empty_cache_fatal :
    fetch_and_cache_data (.parsed empty_frame) 0 1
      (fun _ => .frame good_frame) (fun _ => true) 3
      = (.raised .emptyCache, 0) := by
  rfl

/-- C3 amended: only an absent cache file or a failed date-range test
falls through to the remote download; an unreadable cache, an empty
cache, or a cache missing required columns raises an error that
`fetch_and_cache_data` propagates to its caller with no re-fetch. -/
theorem c3_cache_read_failure_propagates (s e : Int) (f : Frame)
    (remote : Nat → RemoteResult) (w : Nat → Bool) (m : Nat) :
    read_cache .absent s e = .refetch
    ∧ read_cache .unreadable s e = .fatal .unreadableCache
    ∧ (f.rows.isEmpty = true → read_cache (.parsed f) s e = .fatal .emptyCache)
    ∧ (f.rows.isEmpty = false →
        cache_required_cols.filter (fun col => ! f.cols.contains col) ≠ [] →
        read_cache (.parsed f) s e
          = .fatal (.cacheMissingCols
              (cache_required_cols.filter (fun col => ! f.cols.contains col))))
    ∧ (f.rows.isEmpty = false →
        cache_required_cols.filter (fun col => ! f.cols.contains col) = [] →
        cache_range_ok_main (minDate f) (maxDate f) s e = false →
        read_cache (.parsed f) s e = .refetch)
    ∧ (∀ err, read_cache (.parsed f) s e = .fatal err →
        fetch_and_cache_data (.parsed f) s e remote w m = (.raised err, 0)) := by
  refine ⟨rfl, rfl, ?_, ?_, ?_, ?_⟩
  · intro h
    simp only [read_cache]
    rw [if_pos h]
  · intro h hmiss
    simp only [read_cache]
    rw [if_neg (by simp [h]), if_pos hmiss]
  · intro h hmiss hrange
    simp only [read_cache]
    rw [if_neg (by simp [h]), if_neg (not_ne_iff.mpr hmiss), if_neg (by simp [hrange])]
  · intro err h
    simp only [fetch_and_cache_data]
    rw [h]

/-- C3 witness: the empty-cache conjunct applied at a concrete entry. -/
theorem c3_witness_empty_cache :
    read_cache (.parsed empty_frame) 0 1 = .fatal .emptyCache :=
  (c3_cache_read_failure_propagates 0 1 empty_frame
      (fun _ => .frame good_frame) (fun _ => true) 3).2.2.1 rfl

/-- C4: against a remote that returns an empty result on every call,
the client with `MAX_RETRIES = 3` invokes the remote exactly 3 times
and then raises the terminal `RuntimeError` (the spec's
`FetchExhaustedError`) wrapping the last underlying error — the
`ValueError` raised on an empty download. -/
theorem c4_retry_exhaustion (s e : Int) (remote : Nat → RemoteResult)
    (w : Nat → Bool) (h : ∀ i, ∃ f, remote i = .frame f ∧ f.rows = []) :
    fetch_and_cache_data .absent s e remote w 3
      = (.raised (.downloadExhausted .emptyDownload), 3) := by
  have hstep : ∀ j, attempt_step remote w j = .error .emptyDownload := by
    intro j
    obtain ⟨f, hf, hrows⟩ := h j
    simp [attempt_step, hf, hrows]
  show (match download_retry remote w 3 with
        | (n, .success f) => (FetchResult.ok f, n)
        | (n, .exhausted last) => (.raised (.downloadExhausted last), n)
        | (n, .fellThrough) => (.noneResult, n))
      = (.raised (.downloadExhausted .emptyDownload), 3)
  rw [show download_retry remote w 3 = download_retry_aux remote w 0 (2 + 1) from rfl,
    download_retry_all_fail remote w .emptyDownload hstep 2 0]

/-- C4 witness: the always-empty remote stub. -/
theorem c4_witness_empty_stub :
    fetch_and_cache_data .absent 0 1 (fun _ => .frame empty_frame) (fun _ => true) 3
      = (.raised (.downloadExhausted .emptyDownload), 3) :=
  c4_retry_exhaustion 0 1 (fun _ => .frame empty_frame) (fun _ => true)
    (fun _ => ⟨empty_frame, rfl, rfl⟩)

/-- C5 counterexample: with a remote that always yields a good frame
and a cache write that always fails, the fetched series is NOT returned
— the write failure is caught by the retry handler, all 3 attempts are
consumed, and the terminal download `RuntimeError` is raised instead,
where the claim requires the series to still be delivered. -/
theorem c5_counterexample_write_failure_not_swallowed :
    fetch_and_cache_data .absent 0 1 (fun _ => .frame good_frame) (fun _ => false) 3
      = (.raised (.downloadExhausted .writeFail), 3) := by
  rfl

/-- C5 amended: a failure while writing the fetched series to the cache
is treated as a retryable download failure, not swallowed: the attempt
is retried, and if the write keeps failing the client exhausts its 3
attempts and raises the terminal download error, so the series is not
returned to the caller. -/
theorem c5_write_failure_retried_then_terminal (s e : Int)
    (remote : Nat → RemoteResult) (w : Nat → Bool)
    (h : ∀ i, ∃ f, remote i = .frame f
        ∧ f.rows.isEmpty = false
        ∧ dl_required_cols.filter (fun col => ! f.cols.contains col) = []
        ∧ f.tzAware = false)
    (hw : ∀ i, w i = false) :
    fetch_and_cache_data .absent s e remote w 3
      = (.raised (.downloadExhausted .writeFail), 3) := by
  have hstep : ∀ j, attempt_step remote w j = .error .writeFail := by
    intro j
    obtain ⟨f, hf, hrows, hcols, htz⟩ := h j
    simp only [attempt_step, hf, hrows, tz_localize_utc_convert, htz, hw j]
    rw [if_neg (by simp), if_neg (not_ne_iff.mpr hcols)]
    simp
  show (match download_retry remote w 3 with
        | (n, .success f) => (FetchResult.ok f, n)
        | (n, .exhausted last) => (.raised (.downloadExhausted last), n)
        | (n, .fellThrough) => (.noneResult, n))
      = (.raised (.downloadExhausted .writeFail), 3)
  rw [show download_retry remote w 3 = download_retry_aux remote w 0 (2 + 1) from rfl,
    download_retry_all_fail remote w .writeFail hstep 2 0]

/-- C5 witness: the amended statement at a concrete good remote and an
always-failing cache write. -/
theorem c5_witness_failing_write :
    fetch_and_cache_data .absent 0 10 (fun _ => .frame good_frame) (fun _ => false) 3
      = (.raised (.downloadExhausted .writeFail), 3) :=
  c5_write_failure_retried_then_terminal 0 10
    (fun _ => .frame good_frame) (fun _ => false)
    (fun _ => ⟨good_frame, rfl, by decide, by decide, rfl⟩) (fun _ => rfl)

/-- C6 counterexample: the pipeline cleaner (`preprocess_data`,
src/main.py lines 293-331) has no deduplication step.  On an input with
two rows for the same date and different close prices it returns both
rows, where the claim requires exactly one (the last occurrence) and
strictly increasing timestamps. -/
theorem c6_counterexample_pipeline_keeps_duplicates :
    preprocess_data dup_frame
      = .ok { cols := ["Date", "Open", "High", "Low", "Close"]
            , rows := [dup_row_a, dup_row_b], tzAware := true }
    ∧ dup_row_a.Date = dup_row_b.Date
    ∧ dup_row_a.Close ≠ dup_row_b.Close := by
  refine ⟨rfl, by decide, by decide⟩

/-- C6 amended: keep-last deduplication is performed only by the
CSV-oriented cleaner's `df[~df.index.duplicated(keep='last')]`
(src/main.py line 36): among the rows it keeps, those carrying any given
date are exactly the last input row with that date (and none when the
date is absent); the pipeline cleaner performs no deduplication and
retains duplicate-date rows. -/
theorem c6_dedup_keeps_last_occurrence (d : Int) (rows : List Row) :
    (dedup_keep_last rows).filter (fun r => r.Date == d)
      = ((rows.reverse.find? (fun r => r.Date == d)).toList) := by
  induction rows with
  | nil => rfl
  | cons r rs ih =>
    rw [List.reverse_cons, List.find?_append]
    by_cases hdup : rs.any (fun x => x.Date == r.Date)
    · rw [show dedup_keep_last (r :: rs) = dedup_keep_last rs from by
        simp [dedup_keep_last, hdup], ih]
      by_cases hpr : (r.Date == d) = true
      · obtain ⟨x, hx, hxd⟩ := List.any_eq_true.mp hdup
        have hxp : ∃ y ∈ rs.reverse, (y.Date == d) = true := by
          refine ⟨x, List.mem_reverse.mpr hx, ?_⟩
          have h1 : x.Date = r.Date := by simpa using hxd
          have h2 : r.Date = d := by simpa using hpr
          simp [h1, h2]
        obtain ⟨y, hy⟩ := Option.isSome_iff_exists.mp (List.find?_isSome.mpr hxp)
        rw [hy]
        rfl
      · rw [show List.find? (fun r2 => r2.Date == d) [r] = none from by
          simp [List.find?, hpr], Option.or_none]
    · rw [show dedup_keep_last (r :: rs) = r :: dedup_keep_last rs from by
        simp [dedup_keep_last, hdup]]
      by_cases hpr : (r.Date == d) = true
      · have hnone : rs.reverse.find? (fun x => x.Date == d) = none := by
          apply List.find?_eq_none.mpr
          intro x hx hpx
          apply hdup
          refine List.any_eq_true.mpr ⟨x, List.mem_reverse.mp hx, ?_⟩
          have h1 : x.Date = d := by simpa using hpx
          have h2 : r.Date = d := by simpa using hpr
          simp [h1, h2]
        rw [show List.filter (fun x => x.Date == d) (r :: dedup_keep_last rs)
            = r :: List.filter (fun x => x.Date == d) (dedup_keep_last rs) from by
          simp [List.filter_cons, hpr], ih, hnone]
        simp [List.find?, hpr]
      · rw [show List.filter (fun x => x.Date == d) (r :: dedup_keep_last rs)
            = List.filter (fun x => x.Date == d) (dedup_keep_last rs) from by
          simp [List.filter_cons, hpr], ih,
          show List.find? (fun x => x.Date == d) [r] = none from by
            simp [List.find?, hpr], Option.or_none]

/-- A frame with the required columns but only one usable row. -/
def one_row_frame : Frame :=
  { cols := ["Date", "Open", "High", "Low", "Close"]
  , rows :=
      [ { Date := 3, Open := some 1, High := some 2
        , Low := some 1, Close := some 2, Volume := none } ]
  , tzAware := false }

/-- C7: the pipeline cleaner never returns a series of length 0 or 1 —
every successful result has at least 2 rows — and when the required
columns are present but fewer than 2 rows survive the cleaning steps it
fails with the `ValueError` of src/main.py line 319 (the spec's
`InsufficientDataError`). -/
theorem c7_min_two_rows (df : Frame) :
    (∀ out, preprocess_data df = .ok out → 2 ≤ out.rows.length)
    ∧ (pp_missing df = [] →
        (trimmed_cols df).contains "Date" = true →
        (df.rows.filter row_complete).length < 2 →
        preprocess_data df = .error .insufficientData) := by
  constructor
  · intro out h
    simp only [preprocess_data] at h
    split at h
    · exact Except.noConfusion h
    split at h
    · exact Except.noConfusion h
    split at h
    · exact Except.noConfusion h
    · rename_i hlen
      injection h with h'
      rw [← h']
      exact Nat.le_of_not_lt hlen
  · intro hmiss hdate hlen
    have hkept : (pp_kept df).length = (df.rows.filter row_complete).length :=
      (pp_kept_perm df).length_eq
    simp only [preprocess_data]
    rw [if_neg (not_ne_iff.mpr hmiss), if_neg (by rw [hdate]; simp),
      if_pos (by rw [hkept]; exact hlen)]

/-- C7 witness: a one-row input with the required columns is rejected as
insufficient. -/
theorem c7_witness_one_row :
    preprocess_data one_row_frame = .error .insufficientData :=
  (c7_min_two_rows one_row_frame).2 (by decide) (by decide) (by decide)

/-- C8: timestamp localization is applied exactly once.  The
`tz_localize('UTC').tz_convert(tz)` step (src/main.py line 267) errors
on an already timezone-aware input (pandas' `TypeError`, the spec's
`TimezoneError`) — never a silent second localization or skip — and on
timezone-naive input localizes as UTC and converts, after which the
result is aware, the instants are unchanged, and a second localization
attempt is again an error. -/
theorem c8_localize_once (f : Frame) :
    (f.tzAware = true → tz_localize_utc_convert f = .error .alreadyTzAware)
    ∧ (f.tzAware = false →
        tz_localize_utc_convert f = .ok (to_datetime_utc f)
        ∧ (to_datetime_utc f).tzAware = true
        ∧ (to_datetime_utc f).rows = f.rows
        ∧ tz_localize_utc_convert (to_datetime_utc f) = .error .alreadyTzAware) := by
  constructor
  · intro h
    simp [tz_localize_utc_convert, h]
  · intro h
    refine ⟨?_, rfl, rfl, rfl⟩
    simp [tz_localize_utc_convert, to_datetime_utc, h]

/-- C8 witness: the aware and naive cases at concrete frames. -/
theorem c8_witness_aware_and_naive :
    tz_localize_utc_convert entry_full_range = .error .alreadyTzAware
    ∧ tz_localize_utc_convert good_frame = .ok (to_datetime_utc good_frame) :=
  ⟨(c8_localize_once entry_full_range).1 rfl,
   ((c8_localize_once good_frame).2 rfl).1⟩

/-- C9: every failure of the CSV-oriented `preprocess_data` and of
`plot_stock_kline` terminates the process with exit code 1 (via the
`try ... except Exception: sys.exit(1)` wrappers at src/main.py
lines 60-62 and 183-185); the caller can only observe a normal return
or process exit, never a catchable exception. -/
theorem c9_failures_exit_process (df : Frame) (ft : Bool)
    (parsed : Except String Frame) (render : Except String Unit) :
    ((∃ f, preprocess_data_csv df = .ok f) ∨ preprocess_data_csv df = .exitCode 1)
    ∧ (∀ e2, preprocess_csv_inner df = .error e2 → preprocess_data_csv df = .exitCode 1)
    ∧ ((∃ f, plot_stock_kline ft parsed render = .ok f)
        ∨ plot_stock_kline ft parsed render = .exitCode 1) := by
  refine ⟨?_, ?_, ?_⟩
  · cases h : preprocess_csv_inner df with
    | ok f => exact .inl ⟨f, by simp [preprocess_data_csv, h]⟩
    | error e2 => exact .inr (by simp [preprocess_data_csv, h])
  · intro e2 h
    simp [preprocess_data_csv, h]
  · cases ft with
    | false => exact .inr (by simp [plot_stock_kline])
    | true =>
      cases parsed with
      | error msg => exact .inr (by simp [plot_stock_kline])
      | ok raw =>
        cases h : preprocess_csv_inner raw with
        | error e2 => exact .inr (by simp [plot_stock_kline, h])
        | ok df2 =>
          cases render with
          | error msg => exact .inr (by simp [plot_stock_kline, h])
          | ok u => exact .inl ⟨df2, by simp [plot_stock_kline, h]⟩

/-- C9 witness: a frame without the target columns makes the inner body
fail and the wrapper exit with code 1. -/
theorem c9_witness_exit_on_bad_columns :
    preprocess_data_csv empty_frame = .exitCode 1 :=
  (c9_failures_exit_process empty_frame true (.ok empty_frame) (.ok ())).2.1
    (.keyErrorCols csv_target_cols) rfl

/-- C10: the pipeline cleaner only drops rows, reorders rows and
converts the `Date` column: every row of a successful result carries
`Open`, `High`, `Low`, `Close` and `Volume` values equal to those of
some input row — price and volume fields of retained rows are never
modified. -/
theorem c10_cleaner_preserves_row_values (df out : Frame)
    (h : preprocess_data df = .ok out) :
    ∀ r ∈ out.rows, ∃ r0 ∈ df.rows,
      r.Open = r0.Open ∧ r.High = r0.High ∧ r.Low = r0.Low
      ∧ r.Close = r0.Close ∧ r.Volume = r0.Volume := by
  have hrows : out.rows = pp_kept df := by
    simp only [preprocess_data] at h
    split at h
    · exact Except.noConfusion h
    split at h
    · exact Except.noConfusion h
    split at h
    · exact Except.noConfusion h
    · injection h with h'
      rw [← h']
  intro r hr
  rw [hrows] at hr
  have h1 : r ∈ sort_by_date df.rows := List.mem_of_mem_filter hr
  have h2 : r ∈ df.rows := (List.perm_insertionSort dateLE df.rows).mem_iff.mp h1
  exact ⟨r, h2, rfl, rfl, rfl, rfl, rfl⟩

/-- C10 witness: applied to the concrete duplicate-date input and the
first row of its output. -/
theorem c10_witness_concrete_row :
    ∃ r0 ∈ dup_frame.rows,
      dup_row_a.Open = r0.Open ∧ dup_row_a.High = r0.High
      ∧ dup_row_a.Low = r0.Low ∧ dup_row_a.Close = r0.Close
      ∧ dup_row_a.Volume = r0.Volume :=
  c10_cleaner_preserves_row_values dup_frame
    { cols := ["Date", "Open", "High", "Low", "Close"]
    , rows := [dup_row_a, dup_row_b], tzAware := true }
    rfl dup_row_a (by decide)
